import Mathlib

/-!
# Verification of the `database` connection-management package

A shallow embedding of the Go package `tokmz/database` (files `config.go`,
`manager.go`, `manager_impl.go`, `logger.go`) together with proofs about its
configuration validation, read routing, health checking, transaction
execution, construction-time resource handling, logging and shutdown.

Conventions of the embedding:
* Go `time.Duration` values (an `int64` count of nanoseconds) are `Int`.
* Go `int` values that the code compares against negatives are `Int`.
* Go errors are `Option String` (the `%w`-wrapped message text); `none` is
  the nil error.
* Calls into the external driver/ORM (`gorm.Open`, `db.DB()`, `PingContext`,
  `sql.DB.Close`, transaction begin/commit) are modelled by explicit
  environment records supplying each call's outcome, so every theorem
  quantifies over all possible behaviours of those collaborators.
-/

namespace Database

/-! ## Configuration model (`config.go`) -/

/-- `PoolConfig` from `config.go`: connection-pool shape. -/
structure PoolConfig where
  maxOpenConns : Int
  maxIdleConns : Int
  connMaxLifetime : Int
  connMaxIdleTime : Int
  deriving Repr, DecidableEq

/-- `LogConfig` from `config.go`. -/
structure LogConfig where
  enabled : Bool
  level : String
  colorful : Bool
  ignoreRecordNotFoundError : Bool
  parameterizedQueries : Bool
  deriving Repr, DecidableEq

/-- `SlowQueryConfig` from `config.go`. -/
structure SlowQueryConfig where
  enabled : Bool
  threshold : Int
  logParams : Bool
  deriving Repr, DecidableEq

/-- `MonitorConfig` from `config.go`. -/
structure MonitorConfig where
  enabled : Bool
  healthCheckInterval : Int
  connectionTimeout : Int
  maxRetries : Int
  deriving Repr, DecidableEq

/-- `SlaveConfig` from `config.go`: one replica descriptor. -/
structure SlaveConfig where
  dsn : String
  type : String
  weight : Int
  poolConfig : PoolConfig
  deriving Repr, DecidableEq

/-- `Config` from `config.go`. -/
structure Config where
  master : String
  slaves : List SlaveConfig
  type : String
  poolConfig : PoolConfig
  logConfig : LogConfig
  slowQueryConfig : SlowQueryConfig
  monitorConfig : MonitorConfig
  deriving Repr, DecidableEq

/-! ## `validateConfig` (`manager.go` lines 174-215) -/

/-- `validateConfig` from `manager.go`: returns the first failing check's
error message, `none` on success.  Mirrors the Go checks in order. -/
def validateConfig (config : Config) : Option String :=
  if config.master = "" then
    some "master database DSN cannot be empty"
  else if config.type = "" then
    some "database type cannot be empty"
  else if config.poolConfig.maxOpenConns < 0 then
    some "max open connections cannot be negative"
  else if config.poolConfig.maxIdleConns < 0 then
    some "max idle connections cannot be negative"
  else if config.poolConfig.maxIdleConns > config.poolConfig.maxOpenConns
      ∧ config.poolConfig.maxOpenConns > 0 then
    some "max idle connections cannot be greater than max open connections"
  else if config.slowQueryConfig.enabled ∧ config.slowQueryConfig.threshold ≤ 0 then
    some "slow query threshold must be positive when enabled"
  else if config.monitorConfig.enabled ∧ config.monitorConfig.healthCheckInterval ≤ 0 then
    some "health check interval must be positive when monitoring is enabled"
  else if config.monitorConfig.enabled ∧ config.monitorConfig.connectionTimeout ≤ 0 then
    some "connection timeout must be positive when monitoring is enabled"
  else if config.monitorConfig.enabled ∧ config.monitorConfig.maxRetries < 0 then
    some "max retries cannot be negative"
  else
    none

/-- The configuration-validation phase of `NewManager` (`manager.go` lines
125-133): the nil-config guard followed by `validateConfig`.  The argument is
`Option Config`, `none` standing for a nil `*Config`. -/
def newManagerValidate : Option Config → Option String
  | none => some "config cannot be nil"
  | some c => (validateConfig c).map (fun e => "invalid config: " ++ e)

/-! ## Dialectors and read routing (`manager_impl.go`) -/

/-- A `gorm.Dialector` as produced by `getDialector` (`manager_impl.go`
lines 259-270). -/
inductive Dialector where
  | mysql (dsn : String)
  | postgres (dsn : String)
  | sqlite (dsn : String)
  deriving Repr, DecidableEq

/-- `getDialector` from `manager_impl.go`: maps a DSN and a database-type
string to a driver dialector, or an error for an unsupported type. -/
def getDialector (dsn dbType : String) : Except String Dialector :=
  match dbType with
  | "mysql" => .ok (.mysql dsn)
  | "postgres" => .ok (.postgres dsn)
  | "postgresql" => .ok (.postgres dsn)
  | "sqlite" => .ok (.sqlite dsn)
  | "sqlite3" => .ok (.sqlite dsn)
  | _ => .error ("unsupported database type: " ++ dbType)

/-- The replica-selection policy registered with the dbresolver plugin.  The
source (`manager_impl.go` line 331) registers `dbresolver.RandomPolicy{}`;
no other policy appears anywhere in the package. -/
inductive Policy where
  | randomPolicy
  deriving Repr, DecidableEq

/-- The `dbresolver.Config` value built by `configureDBResolver`
(`manager_impl.go` lines 307-340): one source dialector for the master, one
replica dialector per slave (each from `getDialector` on the slave's DSN and
type), the uniform `RandomPolicy`, and `TraceResolverMode` set once per
slave.  Note that `SlaveConfig.Weight` is never read. -/
structure ResolverConfig where
  sources : List Dialector
  replicas : List Dialector
  policy : Policy
  traceResolverMode : Bool
  deriving Repr, DecidableEq

/-- The replica-collection loop of `configureDBResolver` (`manager_impl.go`
lines 312-318): one dialector per slave, in order, stopping at the first
`getDialector` failure with its wrapped error. -/
def slaveDialectors : List SlaveConfig → Except String (List Dialector)
  | [] => .ok []
  | slaveConfig :: rest =>
    match getDialector slaveConfig.dsn slaveConfig.type with
    | .error e =>
      .error ("failed to get dialector for slave " ++ slaveConfig.dsn ++ ": " ++ e)
    | .ok d =>
      match slaveDialectors rest with
      | .error e => .error e
      | .ok ds => .ok (d :: ds)

/-- `configureDBResolver` from `manager_impl.go`: builds the resolver
configuration registered on the gorm handle, or the first dialector error. -/
def configureDBResolver (config : Config) : Except String ResolverConfig :=
  match slaveDialectors config.slaves with
  | .error e => .error e
  | .ok replicas =>
    match getDialector config.master config.type with
    | .error e => .error ("failed to get dialector for master: " ++ e)
    | .ok masterDialector =>
      .ok { sources := [masterDialector]
            replicas := replicas
            policy := .randomPolicy
            traceResolverMode := config.slaves.length > 0 }

/-- Where a read lands: the primary handle or the replica at a given index
of the registered replica list. -/
inductive Route where
  | master
  | replica (i : Nat)
  deriving Repr, DecidableEq

/-- Modelled external collaborator: the dbresolver plugin's `RandomPolicy`
resolution for a statement carrying the `dbresolver.Read` clause (as
attached by `GetSlaveDB`, `manager_impl.go` lines 36-40).  `initDB`
registers the resolver only when at least one slave is configured
(`manager_impl.go` lines 243-247), so with no slaves the Read clause has no
resolver and the statement runs on the primary handle; otherwise
`RandomPolicy` picks one of the registered replica connections uniformly at
random, here driven by an externally supplied random number `r`. -/
def routeForRead (config : Config) (r : Nat) : Except String Route :=
  if config.slaves.length = 0 then
    .ok .master
  else do
    let rc ← configureDBResolver config
    return .replica (r % rc.replicas.length)

/-! ## `Transaction` (`manager_impl.go` lines 48-76) -/

/-- How the callback passed to `Transaction` terminates: a nil error, a
non-nil error value, or a panic carrying a value. -/
inductive CallbackResult where
  | ok
  | err (e : String)
  | panic (v : String)
  deriving Repr, DecidableEq

/-- Outcomes of the external transaction handle: the error reported by
`Begin` (via `tx.Error`) and the error reported by `Commit`, each `none`
when the operation succeeds. -/
structure TxEnv where
  beginErr : Option String
  commitErr : Option String
  deriving Repr, DecidableEq

/-- An operation issued on the transaction handle, in issue order. -/
inductive TxOp where
  | begin
  | rollback
  | commit
  deriving Repr, DecidableEq

/-- How `Transaction` returns control to its caller: a normal return with a
nil or non-nil error, or a propagated panic. -/
inductive TxOutcome where
  | ret (e : Option String)
  | panicked (v : String)
  deriving Repr, DecidableEq

/-- `DBManager.Transaction` from `manager_impl.go`: returns the outcome
delivered to the caller together with the list of operations issued on the
transaction handle.  Mirrors the source: nil-callback guard; `Begin` with
its error wrapped; a deferred `recover` that rolls back and re-panics; a
rollback and unchanged error return when the callback errs; a `Commit`
whose error is wrapped; no rollback on the commit path. -/
def Transaction (env : TxEnv) (fn : Option CallbackResult) : TxOutcome × List TxOp :=
  match fn with
  | none => (.ret (some "transaction function cannot be nil"), [])
  | some cb =>
    match env.beginErr with
    | some e => (.ret (some ("failed to begin transaction: " ++ e)), [.begin])
    | none =>
      match cb with
      | .panic v => (.panicked v, [.begin, .rollback])
      | .err e => (.ret (some e), [.begin, .rollback])
      | .ok =>
        match env.commitErr with
        | some e => (.ret (some ("failed to commit transaction: " ++ e)), [.begin, .commit])
        | none => (.ret none, [.begin, .commit])

/-! ## Health checking (`manager_impl.go` lines 84-140) -/

/-- `HealthStatus` from `manager.go` lines 42-51.  Times are abstract `Nat`
instants / `Int` durations; `errorMessage` is `""` when absent (the Go zero
value, serialized with `omitempty`). -/
structure HealthStatus where
  isHealthy : Bool
  lastCheckTime : Nat
  errorMessage : String
  responseTime : Int
  deriving Repr, DecidableEq

/-- Outcome of one probe of a handle: the error from `db.DB()`, the error
from `PingContext`, and the measured elapsed time. -/
structure ProbeResult where
  dbErr : Option String
  pingErr : Option String
  elapsed : Int
  deriving Repr, DecidableEq

/-- The mutable `DBManager` fields touched by health checking
(`manager.go` lines 104-107): the `healthStatus` snapshot map and the
`lastHealthCheck` timestamp (`none` standing for the zero `time.Time`). -/
structure ManagerHealthState where
  healthStatus : List (String × HealthStatus)
  lastHealthCheck : Option Nat
  deriving Repr, DecidableEq

/-- `DBManager.checkSingleDB` from `manager_impl.go` lines 111-140: builds
one `HealthStatus` from a probe outcome; a failure of `db.DB()` or of the
ping is recorded in the status, never raised. -/
def checkSingleDB (pr : ProbeResult) (start : Nat) : HealthStatus :=
  match pr.dbErr with
  | some e =>
    { isHealthy := false, lastCheckTime := start
      errorMessage := "failed to get sql.DB: " ++ e, responseTime := pr.elapsed }
  | none =>
    match pr.pingErr with
    | some e =>
      { isHealthy := false, lastCheckTime := start
        errorMessage := "ping failed: " ++ e, responseTime := pr.elapsed }
    | none =>
      { isHealthy := true, lastCheckTime := start
        errorMessage := "", responseTime := pr.elapsed }

/-- `DBManager.HealthCheck` from `manager_impl.go` lines 84-102: probes the
master handle once for the `"master"` entry and once per configured slave
for each `"slave_<i>"` entry (the source passes `m.db` for the slaves too),
then sets `m.lastHealthCheck := time.Now()`.  `probes k` is the outcome the
external driver gives the `k`-th probe of the pass; `now` is the current
instant.  Returns the result map (as an ordered association list) and the
updated manager state. -/
def HealthCheck (config : Config) (probes : Nat → ProbeResult) (now : Nat)
    (st : ManagerHealthState) :
    List (String × HealthStatus) × ManagerHealthState :=
  let masterEntry := ("master", checkSingleDB (probes 0) now)
  let slaveEntries := (List.range config.slaves.length).map
    (fun i => ("slave_" ++ toString i, checkSingleDB (probes (i + 1)) now))
  (masterEntry :: slaveEntries, { st with lastHealthCheck := some now })

/-! ## Construction (`manager.go` lines 125-167, `manager_impl.go` lines
219-302) -/

/-- Outcomes of the external driver calls made during construction:
`openErr d` is `gorm.Open`'s result for dialector `d`; `sqlDBErr` is the
result of `m.db.DB()` inside `configureConnectionPool`; `useErr` is the
result of `m.db.Use(dbresolver.Register ...)`. -/
structure InitEnv where
  openErr : Dialector → Option String
  sqlDBErr : Option String
  useErr : Option String

/-- Resource trace of one construction attempt: which handles were opened
by `gorm.Open` and which were closed again before returning, in order. -/
structure InitTrace where
  openedHandles : List Dialector
  closedHandles : List Dialector
  deriving Repr, DecidableEq

/-- `DBManager.initDB` from `manager_impl.go` lines 219-250: resolve the
master dialector, open the master handle, configure its pool, and register
the resolver when slaves are configured.  Returns the error (if any) and
the resource trace.  The source closes nothing on any failure path. -/
def initDB (config : Config) (env : InitEnv) : Option String × InitTrace :=
  match getDialector config.master config.type with
  | .error e =>
    (some ("failed to get dialector for master: " ++ e), ⟨[], []⟩)
  | .ok dialector =>
    match env.openErr dialector with
    | some e =>
      (some ("failed to connect to master database: " ++ e), ⟨[], []⟩)
    | none =>
      match env.sqlDBErr with
      | some e =>
        (some ("failed to configure master connection pool: " ++ e),
         ⟨[dialector], []⟩)
      | none =>
        if config.slaves.length > 0 then
          match configureDBResolver config with
          | .error e =>
            (some ("failed to configure db resolver: " ++ e), ⟨[dialector], []⟩)
          | .ok _ =>
            match env.useErr with
            | some e =>
              (some ("failed to configure db resolver: " ++ e), ⟨[dialector], []⟩)
            | none => (none, ⟨[dialector], []⟩)
        else
          (none, ⟨[dialector], []⟩)

/-- `NewManager` from `manager.go` lines 125-167: nil-config guard,
`validateConfig`, then `initDB`; on an `initDB` error it cancels the
context and returns the wrapped error without closing anything.  Returns
the error (`none` on success) and the resource trace. -/
def NewManager (config : Option Config) (env : InitEnv) : Option String × InitTrace :=
  match config with
  | none => (some "config cannot be nil", ⟨[], []⟩)
  | some c =>
    match validateConfig c with
    | some e => (some ("invalid config: " ++ e), ⟨[], []⟩)
    | none =>
      match initDB c env with
      | (some e, tr) => (some ("failed to initialize database: " ++ e), tr)
      | (none, tr) => (none, tr)

/-! ## Default logger (`logger.go` lines 12-103, `manager.go` lines 30-39) -/

/-- `LogLevel` from `manager.go`: `Silent = 1`, `Error = 2`, `Warn = 3`,
`Info = 4` (iota + 1). -/
inductive LogLevel where
  | Silent
  | Error
  | Warn
  | Info
  deriving Repr, DecidableEq

/-- The numeric value of a `LogLevel` constant, as compared by the Go code. -/
def LogLevel.toNat : LogLevel → Nat
  | .Silent => 1
  | .Error => 2
  | .Warn => 3
  | .Info => 4

/-- Which class of line a call to `Trace` emits, if any. -/
inductive TraceLog where
  | error
  | warn
  | info
  deriving Repr, DecidableEq

/-- `DefaultLogger.getSlowThreshold` from `logger.go` lines 100-103: a
fixed 200ms (in nanoseconds); the logger's `LogConfig` carries no threshold
and none is consulted. -/
def getSlowThreshold : Int := 200000000

/-- `DefaultLogger.Trace` from `logger.go` lines 71-87: returns the class
of log line emitted for a call with the given logger level, elapsed time
(nanoseconds) and error, `none` when nothing is printed.  Mirrors the
source's early `Silent` return and its ordered switch. -/
def Trace (logLevel : LogLevel) (elapsed : Int) (err : Option String) : Option TraceLog :=
  if logLevel.toNat ≤ LogLevel.Silent.toNat then
    none
  else if err.isSome ∧ logLevel.toNat ≥ LogLevel.Error.toNat then
    some .error
  else if elapsed > getSlowThreshold ∧ logLevel.toNat ≥ LogLevel.Warn.toNat then
    some .warn
  else if logLevel = .Info then
    some .info
  else
    none

/-- The level at which each trace class is emitted, in the ordering
Silent < Error < Warn < Info. -/
def TraceLog.levelNat : TraceLog → Nat
  | .error => 2
  | .warn => 3
  | .info => 4

/-- Modelled from the spec: the behaviour the specification ascribes to
`trace` — classify the call (error present ⇒ Error; elapsed exceeding the
CONFIGURED slow-operation threshold ⇒ Warn; otherwise Info) and emit the
class only when its level is at or below the logger's level.  Stated over
an explicit configured threshold, for comparison with `Trace`, whose
threshold is the fixed `getSlowThreshold`. -/
def traceSpec (threshold : Int) (logLevel : LogLevel) (elapsed : Int)
    (err : Option String) : Option TraceLog :=
  if logLevel = .Silent then
    none
  else
    let c : TraceLog :=
      if err.isSome then .error
      else if elapsed > threshold then .warn
      else .info
    if c.levelNat ≤ logLevel.toNat then some c else none

/-! ## `Close` (`manager_impl.go` lines 180-198) -/

/-- Outcomes of the external calls made by `Close`: whether `m.db` is nil,
the result of `m.db.DB()`, and the error `sql.DB.Close` reports the first
time the pool is actually closed.  Per the `database/sql` contract, closing
an already-closed pool returns nil, so only the first close can err. -/
structure CloseEnv where
  dbNil : Bool
  sqlDBErr : Option String
  closeErr : Option String
  deriving Repr, DecidableEq

/-- The `DBManager` state `Close` touches: the cancellation signal, whether
the monitoring goroutine is still running (the `wg` counter being nonzero),
and whether the underlying `sql.DB` pool has been closed. -/
structure CloseState where
  cancelled : Bool
  monitorRunning : Bool
  dbClosed : Bool
  deriving Repr, DecidableEq

/-- `DBManager.Close` from `manager_impl.go` lines 180-198: cancel the
context (idempotent), wait for the monitoring goroutine — which exits on
`ctx.Done()` (`manager_impl.go` lines 388-391) — so `monitorRunning` is
false afterwards, then close the underlying pool when `m.db` is non-nil and
`m.db.DB()` succeeds, returning that close's error.  A second physical
close of the pool returns nil per the `database/sql` contract. -/
def Close (env : CloseEnv) (s : CloseState) : Option String × CloseState :=
  let s1 : CloseState :=
    { cancelled := true, monitorRunning := false, dbClosed := s.dbClosed }
  if env.dbNil then
    (none, s1)
  else
    match env.sqlDBErr with
    | some _ => (none, s1)
    | none =>
      if s.dbClosed then
        (none, { s1 with dbClosed := true })
      else
        (env.closeErr, { s1 with dbClosed := true })

/-! ## Sample values used in concrete statements -/

/-- An all-zero pool shape ("use driver default"). -/
def poolZero : PoolConfig := ⟨0, 0, 0, 0⟩

/-- Logging disabled. -/
def logOff : LogConfig := ⟨false, "", false, false, false⟩

/-- Slow-query detection disabled. -/
def slowOff : SlowQueryConfig := ⟨false, 0, false⟩

/-- Monitoring disabled. -/
def monitorOff : MonitorConfig := ⟨false, 0, 0, 0⟩

/-- A minimal valid configuration: in-memory sqlite primary, no replicas. -/
def baseConfig : Config :=
  { master := "file::memory:", slaves := [], type := "sqlite"
    poolConfig := poolZero, logConfig := logOff
    slowQueryConfig := slowOff, monitorConfig := monitorOff }

/-! ## Claims about `validateConfig` (C6, C10) -/

/-- `validateConfig` errs exactly on one of the spec's listed conditions
(helper for the claim theorem). -/
theorem validateConfig_isSome_iff (c : Config) :
    (validateConfig c).isSome = true ↔
      (c.master = "" ∨ c.type = "" ∨
         c.poolConfig.maxOpenConns < 0 ∨ c.poolConfig.maxIdleConns < 0 ∨
         (c.poolConfig.maxIdleConns > c.poolConfig.maxOpenConns ∧
           c.poolConfig.maxOpenConns > 0) ∨
         (c.monitorConfig.enabled = true ∧
           (c.monitorConfig.healthCheckInterval ≤ 0 ∨
            c.monitorConfig.connectionTimeout ≤ 0 ∨
            c.monitorConfig.maxRetries < 0)) ∨
         (c.slowQueryConfig.enabled = true ∧ c.slowQueryConfig.threshold ≤ 0)) := by
  unfold validateConfig
  split_ifs with h1 h2 h3 h4 h5 h6 h7 h8 h9
  · exact iff_of_true rfl (Or.inl h1)
  · exact iff_of_true rfl (Or.inr (Or.inl h2))
  · exact iff_of_true rfl (Or.inr (Or.inr (Or.inl h3)))
  · exact iff_of_true rfl (Or.inr (Or.inr (Or.inr (Or.inl h4))))
  · exact iff_of_true rfl (Or.inr (Or.inr (Or.inr (Or.inr (Or.inl h5)))))
  · exact iff_of_true rfl (Or.inr (Or.inr (Or.inr (Or.inr (Or.inr (Or.inr h6))))))
  · exact iff_of_true rfl
      (Or.inr (Or.inr (Or.inr (Or.inr (Or.inr (Or.inl ⟨h7.1, Or.inl h7.2⟩))))))
  · exact iff_of_true rfl
      (Or.inr (Or.inr (Or.inr (Or.inr (Or.inr (Or.inl ⟨h8.1, Or.inr (Or.inl h8.2)⟩))))))
  · exact iff_of_true rfl
      (Or.inr (Or.inr (Or.inr (Or.inr (Or.inr (Or.inl ⟨h9.1, Or.inr (Or.inr h9.2)⟩))))))
  · refine iff_of_false (by simp) ?_
    rintro (h | h | h | h | h | ⟨he, h | h | h⟩ | h)
    · exact h1 h
    · exact h2 h
    · exact h3 h
    · exact h4 h
    · exact h5 h
    · exact h7 ⟨he, h⟩
    · exact h8 ⟨he, h⟩
    · exact h9 ⟨he, h⟩
    · exact h6 h

/-- C6: the configuration-validation phase of construction — the nil-config
guard of `NewManager` followed by `validateConfig`, a pure function of the
configuration value — fails with a config error exactly when one of the
listed conditions holds: config absent; primary DSN empty; engine type
empty; `maxOpenConns < 0` or `maxIdleConns < 0`; `maxIdleConns >
maxOpenConns` while `maxOpenConns > 0`; monitoring enabled with
non-positive interval or timeout, or negative retries; slow-operation
detection enabled with non-positive threshold. -/
theorem validateConfig_fails_iff (oc : Option Config) :
    (newManagerValidate oc).isSome = true ↔
      oc = none ∨ ∃ c, oc = some c ∧
        (c.master = "" ∨ c.type = "" ∨
         c.poolConfig.maxOpenConns < 0 ∨ c.poolConfig.maxIdleConns < 0 ∨
         (c.poolConfig.maxIdleConns > c.poolConfig.maxOpenConns ∧
           c.poolConfig.maxOpenConns > 0) ∨
         (c.monitorConfig.enabled = true ∧
           (c.monitorConfig.healthCheckInterval ≤ 0 ∨
            c.monitorConfig.connectionTimeout ≤ 0 ∨
            c.monitorConfig.maxRetries < 0)) ∨
         (c.slowQueryConfig.enabled = true ∧ c.slowQueryConfig.threshold ≤ 0)) := by
  cases oc with
  | none => simp [newManagerValidate]
  | some c =>
    simp only [newManagerValidate, reduceCtorEq, false_or, Option.some.injEq]
    rw [Option.isSome_map', validateConfig_isSome_iff]
    constructor
    · intro h
      exact ⟨c, rfl, h⟩
    · rintro ⟨c', hc, hdis⟩
      cases hc
      exact hdis

/-- C10: `validateConfig` never inspects the `Slaves` list — two
configurations differing only in `slaves` validate identically; in
particular a configuration whose sole replica has an empty DSN, an empty
engine type, a negative weight and `maxIdleConns > maxOpenConns > 0`
passes validation. -/
theorem validateConfig_ignores_slaves :
    (∀ (c : Config) (s : List SlaveConfig),
        validateConfig { c with slaves := s } = validateConfig c) ∧
      validateConfig
        { baseConfig with slaves := [⟨"", "", -1, ⟨2, 5, 0, 0⟩⟩] } = none := by
  refine ⟨fun c s => rfl, ?_⟩
  decide

/-! ## Claim about `Close` (C9) -/

/-- C9: `Close` is idempotent — from any manager state and any behaviour of
the underlying pool, a second `Close` right after a first one returns no
error, and it leaves the state where the first close put it (cancelled,
monitoring stopped, pool closed), so it terminates without doing further
work. -/
theorem close_idempotent (env : CloseEnv) (s : CloseState) :
    (Close env (Close env s).snd).fst = none ∧
      (Close env (Close env s).snd).snd = (Close env s).snd := by
  cases hn : env.dbNil <;> cases he : env.sqlDBErr <;> cases hc : s.dbClosed <;>
    simp [Close, hn, he, hc]

/-! ## Claims about health checking (C4, C5) -/

/-- A string with a nonempty prefix prepended is nonempty (helper). -/
theorem append_ne_empty (p e : String) (hp : p.data ≠ []) : p ++ e ≠ "" := by
  intro h
  have hd : p.data ++ e.data = [] := congrArg String.data h
  rcases List.append_eq_nil.mp hd with ⟨h1, _⟩
  exact hp h1

/-- C5: for every configuration and every outcome of the individual probes,
`HealthCheck` returns a map with exactly one `"master"` entry and one
`"slave_<i>"` entry per configured replica; a probe failure is recorded in
its entry as `isHealthy = false` with a nonempty error message, and the
function is total — it returns the full map, never an error. -/
theorem healthCheck_always_full_map (config : Config) (probes : Nat → ProbeResult)
    (now : Nat) (st : ManagerHealthState) :
    ((HealthCheck config probes now st).fst.map Prod.fst =
        "master" :: (List.range config.slaves.length).map
          (fun i => "slave_" ++ toString i)) ∧
      (HealthCheck config probes now st).fst.length = 1 + config.slaves.length ∧
      ∀ (pr : ProbeResult) (start : Nat),
        ((checkSingleDB pr start).isHealthy = true ↔
            (pr.dbErr = none ∧ pr.pingErr = none)) ∧
          ((checkSingleDB pr start).errorMessage = "" ↔
            (checkSingleDB pr start).isHealthy = true) := by
  refine ⟨?_, ?_, ?_⟩
  · simp [HealthCheck]
  · simp [HealthCheck, Nat.add_comm]
  · intro pr start
    cases hd : pr.dbErr <;> cases hp : pr.pingErr <;>
      simp [checkSingleDB, hd, hp] <;>
      exact append_ne_empty _ _ (by decide)

/-- C4 counterexample: a call to `HealthCheck` that produces a non-empty
result map leaves the manager's `healthStatus` snapshot field exactly as it
was (here: empty), updating only `lastHealthCheck` — refuting the claim
that the shared health snapshot field is updated as a postcondition. -/
theorem healthCheck_leaves_snapshot_stale :
    (HealthCheck baseConfig (fun _ => ⟨none, none, 7⟩) 5 ⟨[], none⟩).snd.healthStatus
        = [] ∧
      (HealthCheck baseConfig (fun _ => ⟨none, none, 7⟩) 5 ⟨[], none⟩).fst =
        [("master", ⟨true, 5, "", 7⟩)] ∧
      (HealthCheck baseConfig (fun _ => ⟨none, none, 7⟩) 5 ⟨[], none⟩).snd.lastHealthCheck
        = some 5 :=
  ⟨rfl, rfl, rfl⟩

/-- C4 amended: every call to `HealthCheck` performs the single-pass check
for all data sources (the returned map has `1 + #slaves` entries) and
updates the last-check timestamp field; the `healthStatus` snapshot field,
however, is left unchanged — results reach the caller only through the
returned map. -/
theorem healthCheck_updates_timestamp_only (config : Config)
    (probes : Nat → ProbeResult) (now : Nat) (st : ManagerHealthState) :
    (HealthCheck config probes now st).snd.lastHealthCheck = some now ∧
      (HealthCheck config probes now st).snd.healthStatus = st.healthStatus ∧
      (HealthCheck config probes now st).fst.length = 1 + config.slaves.length := by
  refine ⟨rfl, rfl, ?_⟩
  simp [HealthCheck, Nat.add_comm]

/-! ## Claims about `Transaction` (C1, C3) -/

/-- C1 counterexample: begin succeeds, the callback succeeds, and the
commit fails — `Transaction` issues no rollback on that exit path, only
`Begin` and `Commit`, and returns the wrapped commit error. -/
theorem transaction_commit_failure_no_rollback :
    (Transaction ⟨none, some "disk full"⟩ (some .ok)).snd = [.begin, .commit] ∧
      TxOp.rollback ∉ (Transaction ⟨none, some "disk full"⟩ (some .ok)).snd ∧
      (Transaction ⟨none, some "disk full"⟩ (some .ok)).fst =
        .ret (some ("failed to commit transaction: " ++ "disk full")) := by
  refine ⟨rfl, by decide, rfl⟩

/-- C1 amended: after a successful begin, `Transaction` issues a rollback
before returning when the callback returns an error, and issues a rollback
before propagating the panic when the callback panics; when the callback
succeeds and the commit itself fails, however, no rollback is issued. -/
theorem transaction_rollback_on_error_and_panic :
    (∀ (ce : Option String) (e : String),
        Transaction ⟨none, ce⟩ (some (.err e)) =
          (.ret (some e), [.begin, .rollback])) ∧
      (∀ (ce : Option String) (v : String),
          Transaction ⟨none, ce⟩ (some (.panic v)) =
            (.panicked v, [.begin, .rollback])) ∧
      (∀ e : String, TxOp.rollback ∉ (Transaction ⟨none, some e⟩ (some .ok)).snd) := by
  refine ⟨fun ce e => rfl, fun ce v => rfl, fun e => ?_⟩
  simp [Transaction]

/-- C3: a callback error is returned to the caller unchanged — the very
value the callback returned, unwrapped — after a rollback; a begin failure
is returned wrapped with the begin-failure context, a commit failure
wrapped with the commit-failure context, and the two wrapped forms are
distinguishable (no begin-failure message equals any commit-failure
message). -/
theorem transaction_error_propagation :
    (∀ (ce : Option String) (e : String),
        Transaction ⟨none, ce⟩ (some (.err e)) =
          (.ret (some e), [.begin, .rollback])) ∧
      (∀ (be : String) (ce : Option String) (cb : CallbackResult),
          Transaction ⟨some be, ce⟩ (some cb) =
            (.ret (some ("failed to begin transaction: " ++ be)), [.begin])) ∧
      (∀ e : String,
          Transaction ⟨none, some e⟩ (some .ok) =
            (.ret (some ("failed to commit transaction: " ++ e)), [.begin, .commit])) ∧
      (∀ e₁ e₂ : String,
          "failed to begin transaction: " ++ e₁ ≠
            "failed to commit transaction: " ++ e₂) := by
  refine ⟨fun ce e => rfl, fun be ce cb => rfl, fun e => rfl, ?_⟩
  intro e₁ e₂ h
  have hd : ("failed to begin transaction: ").data ++ e₁.data =
      ("failed to commit transaction: ").data ++ e₂.data := congrArg String.data h
  have h1 : (("failed to begin transaction: ").data ++ e₁.data)[10]? = some 'b' := by
    rw [List.getElem?_append_left (by decide)]
    decide
  rw [hd, List.getElem?_append_left (by decide)] at h1
  exact absurd h1 (by decide)

/-! ## Claims about the default logger (C8) -/

/-- C8 counterexample: with a configured slow-operation threshold of 500ms,
an error-free 300ms call at level `Info` is emitted at Warn by the code
(which compares against its fixed 200ms default) while the claim's
classification against the configured threshold yields Info. -/
theorem trace_ignores_configured_threshold :
    Trace .Info 300000000 none = some .warn ∧
      traceSpec 500000000 .Info 300000000 none = some .info ∧
      some TraceLog.warn ≠ some TraceLog.info := by
  decide

/-- C8 amended: `DefaultLogger.Trace` behaves exactly as the spec's
classification-plus-gating — silent loggers emit nothing; a call with an
error is classified Error, an error-free call slower than the threshold is
classified Warn, any other call Info; the class is emitted only when its
level is at or below the logger's level in Silent < Error < Warn < Info —
except that the threshold is the fixed 200ms `getSlowThreshold` default,
not a configured slow-operation threshold. -/
theorem trace_classification (logLevel : LogLevel) (elapsed : Int)
    (err : Option String) :
    Trace logLevel elapsed err = traceSpec getSlowThreshold logLevel elapsed err := by
  cases logLevel <;> cases err <;>
    by_cases h : elapsed > getSlowThreshold <;>
      simp [Trace, traceSpec, LogLevel.toNat, TraceLog.levelNat, h]

/-! ## Claims about read routing (C2) -/

/-- `slaveDialectors` depends only on each slave's DSN and type (helper). -/
theorem slaveDialectors_congr : ∀ (l l' : List SlaveConfig),
    l.map (fun s => (s.dsn, s.type)) = l'.map (fun s => (s.dsn, s.type)) →
    slaveDialectors l = slaveDialectors l'
  | [], [], _ => rfl
  | [], _ :: _, h => by simp at h
  | _ :: _, [], h => by simp at h
  | s :: l, s' :: l', h => by
    simp only [List.map_cons, List.cons.injEq, Prod.mk.injEq] at h
    obtain ⟨⟨hdsn, htype⟩, hrest⟩ := h
    have ih := slaveDialectors_congr l l' hrest
    simp [slaveDialectors, hdsn, htype, ih]

/-- A successful `slaveDialectors` yields one dialector per slave (helper). -/
theorem slaveDialectors_length : ∀ (l : List SlaveConfig) (ds : List Dialector),
    slaveDialectors l = .ok ds → ds.length = l.length
  | [], ds, h => by
    simp only [slaveDialectors, Except.ok.injEq] at h
    simp [← h]
  | s :: l, ds, h => by
    simp only [slaveDialectors] at h
    cases hg : getDialector s.dsn s.type with
    | error e => rw [hg] at h; exact absurd h (by simp)
    | ok d =>
      rw [hg] at h
      cases hr : slaveDialectors l with
      | error e => rw [hr] at h; exact absurd h (by simp)
      | ok ds' =>
        rw [hr] at h
        simp only [Except.ok.injEq] at h
        have ih := slaveDialectors_length l ds' hr
        simp [← h, ih]

/-- `configureDBResolver` depends only on the master DSN, the engine type,
and each slave's DSN and type — never on weights or pool shapes (helper). -/
theorem configureDBResolver_congr (c c' : Config) (hm : c'.master = c.master)
    (ht : c'.type = c.type)
    (hs : c'.slaves.map (fun s => (s.dsn, s.type)) =
      c.slaves.map (fun s => (s.dsn, s.type))) :
    configureDBResolver c' = configureDBResolver c := by
  have hlen : c'.slaves.length = c.slaves.length := by
    have := congrArg List.length hs
    simpa using this
  have hsd : slaveDialectors c'.slaves = slaveDialectors c.slaves :=
    slaveDialectors_congr _ _ hs
  simp [configureDBResolver, hm, ht, hsd, hlen]

/-- A configuration with two sqlite replicas of weights 0 and 3. -/
def cfgWeighted : Config :=
  { baseConfig with
      slaves := [⟨"s0", "sqlite", 0, poolZero⟩, ⟨"s1", "sqlite", 3, poolZero⟩] }

/-- C2 counterexample: with replicas of weights 0 and 3, the replica path
selects the weight-0 replica for random draw 0 (and the other for draw 1):
selection is uniform over the replica list, so a replica with weight 0 IS
selected and the weights 0:3 do not act as relative probabilities. -/
theorem routeForRead_selects_weight_zero :
    cfgWeighted.slaves.map SlaveConfig.weight = [0, 3] ∧
      routeForRead cfgWeighted 0 = .ok (.replica 0) ∧
      routeForRead cfgWeighted 1 = .ok (.replica 1) :=
  ⟨rfl, rfl, rfl⟩

/-- C2 amended: with no replicas the read falls back to the primary handle;
with replicas, the registered policy is the uniform `RandomPolicy` and the
selected replica is `r % n` for random draw `r` — a distribution completely
independent of the configured weights (any two configurations agreeing on
master, type, and each slave's DSN and type route identically, whatever
their weights). -/
theorem routeForRead_uniform_unweighted (config : Config) (r : Nat) :
    (config.slaves = [] → routeForRead config r = .ok .master) ∧
      (∀ config' : Config, config'.master = config.master →
        config'.type = config.type →
        config'.slaves.map (fun s => (s.dsn, s.type)) =
          config.slaves.map (fun s => (s.dsn, s.type)) →
        routeForRead config' r = routeForRead config r) ∧
      (∀ rc : ResolverConfig, configureDBResolver config = .ok rc →
        rc.policy = .randomPolicy ∧
          rc.replicas.length = config.slaves.length ∧
          (config.slaves ≠ [] →
            routeForRead config r = .ok (.replica (r % config.slaves.length)))) := by
  refine ⟨?_, ?_, ?_⟩
  · intro h
    simp [routeForRead, h]
  · intro config' hm ht hs
    have hlen : config'.slaves.length = config.slaves.length := by
      have := congrArg List.length hs
      simpa using this
    have hcfg := configureDBResolver_congr config config' hm ht hs
    simp [routeForRead, hlen, hcfg]
  · intro rc hrc
    unfold configureDBResolver at hrc
    cases hsd : slaveDialectors config.slaves with
    | error e => rw [hsd] at hrc; exact absurd hrc (by simp)
    | ok ds =>
      rw [hsd] at hrc
      cases hgd : getDialector config.master config.type with
      | error e => rw [hgd] at hrc; exact absurd hrc (by simp)
      | ok md =>
        rw [hgd] at hrc
        simp only [Except.ok.injEq] at hrc
        have hlen := slaveDialectors_length _ _ hsd
        refine ⟨by rw [← hrc], by rw [← hrc]; exact hlen, ?_⟩
        intro hne
        have hlen0 : config.slaves.length ≠ 0 := by
          simpa [List.length_eq_zero] using hne
        simp [routeForRead, hlen0, configureDBResolver, hsd, hgd, hlen]

/-! ## Claims about construction-time resource handling (C7) -/

/-- An environment in which every external driver call succeeds. -/
def envAllOK : InitEnv := ⟨fun _ => none, none, none⟩

/-- A valid configuration whose sole replica has an unsupported engine
type, so resolver registration fails after the primary is opened. -/
def cfgBadSlave : Config :=
  { baseConfig with slaves := [⟨"sdsn", "oracle", 1, poolZero⟩] }

/-- C7 counterexample: a configuration that passes validation but whose
replica has an unsupported engine type makes `NewManager` fail after
`gorm.Open` succeeded on the primary — and the opened primary handle is
not closed before returning, so a handle is left open. -/
theorem newManager_leaks_handle_on_failure :
    (NewManager (some cfgBadSlave) envAllOK).fst.isSome = true ∧
      (NewManager (some cfgBadSlave) envAllOK).snd.openedHandles =
        [.sqlite "file::memory:"] ∧
      (NewManager (some cfgBadSlave) envAllOK).snd.closedHandles = [] :=
  ⟨rfl, rfl, rfl⟩

/-- C7 amended: `NewManager` never closes a handle on any construction
path; on failures occurring before the primary is opened (nil config,
validation failure, master dialector failure, open failure) no handle has
been opened, but once `gorm.Open` succeeds the primary handle stays in the
opened set on every outcome — including the pool-configuration and
resolver-registration failure paths, which return the error with the
handle still open. -/
theorem newManager_no_unwind (c : Config) (env : InitEnv) :
    ((NewManager (some c) env).snd.closedHandles = []) ∧
      (validateConfig c ≠ none → (NewManager (some c) env).snd.openedHandles = []) ∧
      (∀ d : Dialector, getDialector c.master c.type = .ok d →
        env.openErr d ≠ none →
        (NewManager (some c) env).snd.openedHandles = []) ∧
      (∀ d : Dialector, validateConfig c = none →
        getDialector c.master c.type = .ok d → env.openErr d = none →
        (NewManager (some c) env).snd.openedHandles = [d]) := by
  refine ⟨?_, ?_, ?_, ?_⟩
  · cases hv : validateConfig c with
    | some e => simp [NewManager, hv]
    | none =>
      cases hg : getDialector c.master c.type with
      | error e => simp [NewManager, initDB, hv, hg]
      | ok d =>
        cases ho : env.openErr d with
        | some e => simp [NewManager, initDB, hv, hg, ho]
        | none =>
          cases hs : env.sqlDBErr with
          | some e => simp [NewManager, initDB, hv, hg, ho, hs]
          | none =>
            by_cases hl : c.slaves.length > 0 <;>
              cases hr : configureDBResolver c with
              | error e =>
                simp [NewManager, initDB, hv, hg, ho, hs, hl, hr]
              | ok rc =>
                cases hu : env.useErr <;>
                  simp [NewManager, initDB, hv, hg, ho, hs, hl, hr, hu]
  · intro hv
    cases hveq : validateConfig c with
    | some e => simp [NewManager, hveq]
    | none => exact absurd hveq hv
  · intro d hg ho
    cases hveq : validateConfig c with
    | some e => simp [NewManager, hveq]
    | none =>
      cases hoe : env.openErr d with
      | none => exact absurd hoe ho
      | some e => simp [NewManager, initDB, hveq, hg, hoe]
  · intro d hv hg ho
    cases hs : env.sqlDBErr with
    | some e => simp [NewManager, initDB, hv, hg, ho, hs]
    | none =>
      by_cases hl : c.slaves.length > 0 <;>
        cases hr : configureDBResolver c with
        | error e =>
          simp [NewManager, initDB, hv, hg, ho, hs, hl, hr]
        | ok rc =>
          cases hu : env.useErr <;>
            simp [NewManager, initDB, hv, hg, ho, hs, hl, hr, hu]

/-- Witness for `newManager_no_unwind` at the concrete leaking input. -/
theorem newManager_no_unwind_witness :
    (NewManager (some cfgBadSlave) envAllOK).snd.closedHandles = [] ∧
      (NewManager (some cfgBadSlave) envAllOK).snd.openedHandles =
        [.sqlite "file::memory:"] := by
  constructor
  · exact (newManager_no_unwind cfgBadSlave envAllOK).1
  · exact (newManager_no_unwind cfgBadSlave envAllOK).2.2.2
      (.sqlite "file::memory:") rfl rfl rfl

/-! ## Witnesses at concrete inputs -/

/-- Witness for `transaction_rollback_on_error_and_panic` at concrete
inputs. -/
theorem transaction_rollback_witness :
    Transaction ⟨none, none⟩ (some (.err "cb failed")) =
        (.ret (some "cb failed"), [.begin, .rollback]) ∧
      Transaction ⟨none, none⟩ (some (.panic "boom")) =
        (.panicked "boom", [.begin, .rollback]) ∧
      TxOp.rollback ∉ (Transaction ⟨none, some "cfail"⟩ (some .ok)).snd := by
  refine ⟨?_, ?_, ?_⟩
  · exact transaction_rollback_on_error_and_panic.1 none "cb failed"
  · exact transaction_rollback_on_error_and_panic.2.1 none "boom"
  · exact transaction_rollback_on_error_and_panic.2.2 "cfail"

/-- Witness for `transaction_error_propagation` at concrete inputs. -/
theorem transaction_error_propagation_witness :
    Transaction ⟨none, none⟩ (some (.err "original cause")) =
        (.ret (some "original cause"), [.begin, .rollback]) ∧
      Transaction ⟨some "b", none⟩ (some .ok) =
        (.ret (some ("failed to begin transaction: " ++ "b")), [.begin]) ∧
      Transaction ⟨none, some "c"⟩ (some .ok) =
        (.ret (some ("failed to commit transaction: " ++ "c")), [.begin, .commit]) ∧
      "failed to begin transaction: " ++ "x" ≠
        "failed to commit transaction: " ++ "y" := by
  refine ⟨?_, ?_, ?_, ?_⟩
  · exact transaction_error_propagation.1 none "original cause"
  · exact transaction_error_propagation.2.1 "b" none .ok
  · exact transaction_error_propagation.2.2.1 "c"
  · exact transaction_error_propagation.2.2.2 "x" "y"

/-- A copy of `cfgWeighted` with both replica weights changed to 7. -/
def cfgReweighted : Config :=
  { baseConfig with
      slaves := [⟨"s0", "sqlite", 7, poolZero⟩, ⟨"s1", "sqlite", 7, poolZero⟩] }

/-- Witness for `routeForRead_uniform_unweighted` at concrete inputs. -/
theorem routeForRead_uniform_unweighted_witness :
    routeForRead baseConfig 5 = .ok .master ∧
      routeForRead cfgReweighted 5 = routeForRead cfgWeighted 5 ∧
      routeForRead cfgWeighted 5 = .ok (.replica (5 % 2)) := by
  refine ⟨?_, ?_, ?_⟩
  · exact (routeForRead_uniform_unweighted baseConfig 5).1 rfl
  · exact (routeForRead_uniform_unweighted cfgWeighted 5).2.1 cfgReweighted rfl rfl rfl
  · exact ((routeForRead_uniform_unweighted cfgWeighted 5).2.2
      ⟨[.sqlite "file::memory:"], [.sqlite "s0", .sqlite "s1"], .randomPolicy, true⟩
      rfl).2.2 (by decide)

end Database
